import Mathlib

/-!
Verification of the MoneyPlant reminder-command parser (`app.py`).

The development shallowly embeds the pure parsing core of the program:

* `parse_date` — the date-expression resolver (`app.py`, lines 34-57);
* `extract_reminder_info` — the field extractor (lines 59-174);
* `parse_reminder_request` — the intent classifier (lines 176-238);
* `delete_reminder` — the delete-by-title store operation (lines 283-341),
  with the store modelled as a list of stored titles.

Python's `re` module is embedded by a small backtracking regular-expression
engine (`M`, `reSearch`, `reSub`) with Python's leftmost, priority-ordered
match semantics; every pattern of the source is transcribed as an `RE` value.
`datetime` values are modelled by `PyDateTime` (civil calendar fields) and
`timedelta` day arithmetic by `nextDay`/`addDays`.  The external `dateutil`
parser is an explicit parameter `cal : String → Option PyDateTime` (`none`
models a parse exception); the current time is an explicit parameter `now`.
Code that can raise a Python exception is modelled in `Except String`.
-/

set_option maxRecDepth 20000
set_option maxHeartbeats 2000000

/-! ## Characters and strings: Python primitives -/

/-- Python whitespace characters (ASCII range, as used by `\s`, `str.split`
and `str.strip`). -/
def isPySpace (c : Char) : Bool :=
  c == ' ' || c == '\t' || c == '\n' || c == '\r' || c == Char.ofNat 11 || c == Char.ofNat 12

/-- Word characters for the regex `\b` boundary (`[A-Za-z0-9_]` over ASCII). -/
def isPyWord (c : Char) : Bool :=
  c.isAlphanum || c == '_'

/-- Does the character list `l` start with `p`? -/
def startsWithCh : List Char → List Char → Bool
  | [], _ => true
  | _ :: _, [] => false
  | a :: as, b :: bs => a == b && startsWithCh as bs

/-- Does `l` contain `pat` as a contiguous sublist?  Models Python's
substring test `pat in l`. -/
def containsSub (pat : List Char) : List Char → Bool
  | [] => pat.isEmpty
  | c :: t => startsWithCh pat (c :: t) || containsSub pat t

/-- Python's `needle in hay` substring test on strings. -/
def pyIn (needle hay : String) : Bool :=
  containsSub needle.data hay.data

/-- Python's `str.lower()` (ASCII letters). -/
def pyLower (s : String) : String :=
  String.mk (s.data.map Char.toLower)

/-- Strip characters satisfying `p` from both ends of a list
(Python's `str.strip`). -/
def stripP (p : Char → Bool) (l : List Char) : List Char :=
  ((l.dropWhile p).reverse.dropWhile p).reverse

/-- Python's `str.split()` helper: accumulate the current word (reversed)
while scanning. -/
def pyWordsGo : List Char → List Char → List (List Char)
  | [], cur => if cur.isEmpty then [] else [cur.reverse]
  | c :: t, cur =>
    if isPySpace c then
      if cur.isEmpty then pyWordsGo t [] else cur.reverse :: pyWordsGo t []
    else
      pyWordsGo t (c :: cur)

/-- Python's `str.split()` with no argument: whitespace-separated words,
empty strings dropped. -/
def pySplit (s : String) : List String :=
  (pyWordsGo s.data []).map String.mk

/-- Python's `str.replace(a, b)` for single-character `a`, `b`. -/
def pyReplace (s : String) (a b : Char) : String :=
  String.mk (s.data.map fun c => if c == a then b else c)

/-- Python's `str.title()`: a letter is upper-cased after a non-letter and
lower-cased after a letter. -/
def pyTitleGo : Bool → List Char → List Char
  | _, [] => []
  | prevAlpha, c :: t =>
    if c.isAlpha then
      (if prevAlpha then c.toLower else c.toUpper) :: pyTitleGo true t
    else
      c :: pyTitleGo false t

/-- Python's `str.title()`. -/
def pyTitle (s : String) : String :=
  String.mk (pyTitleGo false s.data)

/-- The numeric value of a digit list, most significant first. -/
def digitsToNatCh (l : List Char) : Nat :=
  l.foldl (fun n c => n * 10 + (c.toNat - 48)) 0

/-- Python's `int(s)` as used in this program.  Every call site passes a
regex capture; each such capture is either a plain digit string (on which
`int` succeeds with its numeric value) or contains a non-digit (on which
`int` raises `ValueError`, modelled by `none`). -/
def pyIntCh (l : List Char) : Option Nat :=
  if !l.isEmpty && l.all Char.isDigit then some (digitsToNatCh l) else none

/-- Python's `float(s)` as used in this program.  Every call site passes a
capture of one of the amount patterns, an unsigned decimal literal
`digits` or `digits.digits`; the value is returned as an exact rational.
Any other shape is `none` (the `ValueError` case). -/
def pyFloatParts (intPart rest : List Char) : Option ℚ :=
  match rest with
  | [] => (pyIntCh intPart).map (fun n => (n : ℚ))
  | _ :: frac =>
    if !intPart.isEmpty && intPart.all Char.isDigit && !frac.isEmpty && frac.all Char.isDigit then
      some ((digitsToNatCh intPart : ℚ) + (digitsToNatCh frac : ℚ) / (10 ^ frac.length : ℚ))
    else
      none

/-- Python's `float(s)` applied to the integer-then-fraction split of the
argument at its first dot. -/
def pyFloatCh (l : List Char) : Option ℚ :=
  pyFloatParts (l.takeWhile (fun c => c != '.'))
    (l.drop (l.takeWhile (fun c => c != '.')).length)

/-! ## The calendar model: `datetime` and `timedelta` day arithmetic -/

/-- A Python `datetime` value (microseconds are not modelled; no call
compares or displays them). -/
structure PyDateTime where
  year : Nat
  month : Nat
  day : Nat
  hour : Nat
  minute : Nat
  second : Nat
deriving Repr, DecidableEq

/-- Gregorian leap-year test. -/
def isLeapYear (y : Nat) : Bool :=
  (y % 4 == 0 && y % 100 != 0) || y % 400 == 0

/-- Days in a month of the Gregorian calendar. -/
def daysInMonth (y m : Nat) : Nat :=
  if m == 2 then (if isLeapYear y then 29 else 28)
  else if m == 4 || m == 6 || m == 9 || m == 11 then 30
  else 31

/-- The calendar successor of a datetime: one day later, time of day
unchanged (`timedelta(days=1)`). -/
def nextDay (d : PyDateTime) : PyDateTime :=
  if d.day < daysInMonth d.year d.month then
    { d with day := d.day + 1 }
  else if d.month < 12 then
    { d with day := 1, month := d.month + 1 }
  else
    { d with day := 1, month := 1, year := d.year + 1 }

/-- `d + timedelta(days = n)`. -/
def addDays (d : PyDateTime) : Nat → PyDateTime
  | 0 => d
  | n + 1 => nextDay (addDays d n)

/-- The decimal digit character for `n % 10`. -/
def digitChar (n : Nat) : Char :=
  Char.ofNat (48 + n % 10)

/-- `strftime('%Y-%m-%d %H:%M:%S+00:00')`: zero-padded calendar fields and
the fixed literal suffix `+00:00`.  Faithful for in-range `datetime`
fields (year below 10000, two-digit-bounded other fields), which the
`datetime` type itself guarantees in Python. -/
def fmtTimestamp (d : PyDateTime) : String :=
  String.mk [digitChar (d.year / 1000), digitChar (d.year / 100),
    digitChar (d.year / 10), digitChar d.year, '-',
    digitChar (d.month / 10), digitChar d.month, '-',
    digitChar (d.day / 10), digitChar d.day, ' ',
    digitChar (d.hour / 10), digitChar d.hour, ':',
    digitChar (d.minute / 10), digitChar d.minute, ':',
    digitChar (d.second / 10), digitChar d.second,
    '+', '0', '0', ':', '0', '0']

/-- Checker for the output shape `YYYY-MM-DD HH:MM:SS+00:00`: 25
characters, digits in the calendar positions, literal separators, and the
fixed suffix `+00:00`. -/
def isTimestampFormat (s : String) : Bool :=
  match s.data with
  | [y1, y2, y3, y4, s1, m1, m2, s2, d1, d2, sp, h1, h2, c1, n1, n2, c2, e1, e2,
     pl, z1, z2, c3, z3, z4] =>
    ([y1, y2, y3, y4, m1, m2, d1, d2, h1, h2, n1, n2, e1, e2].all Char.isDigit)
      && s1 == '-' && s2 == '-' && sp == ' ' && c1 == ':' && c2 == ':'
      && pl == '+' && z1 == '0' && z2 == '0' && c3 == ':' && z3 == '0' && z4 == '0'
  | _ => false

/-! ## The date-expression resolver `parse_date` (`app.py` 34-57) -/

/-- The `datetime` value computed by `parse_date` before formatting.
`now` is `datetime.now()`; `cal` is `dateutil.parser.parse`, with `none`
standing for a parse exception (the `except` branch falls back to
`now + 1 day`). -/
def parse_dateDT (now : PyDateTime) (cal : String → Option PyDateTime)
    (date_str : String) : PyDateTime :=
  let lower := pyLower date_str
  if pyIn "today" lower then now
  else if pyIn "tomorrow" lower then addDays now 1
  else if pyIn "next week" lower then addDays now 7
  else if pyIn "next month" lower then addDays now 30
  else
    match cal date_str with
    | some p => if p.hour = 0 ∧ p.minute = 0 ∧ p.second = 0 then { p with hour := 9 } else p
    | none => addDays now 1

/-- `parse_date`: resolve a natural-language date fragment and format it. -/
def parse_date (now : PyDateTime) (cal : String → Option PyDateTime)
    (date_str : String) : String :=
  fmtTimestamp (parse_dateDT now cal date_str)

/-- No relative-date keyword occurs in the (lower-cased) input, so
`parse_date` reaches the general parsing step. -/
def noRelKeyword (s : String) : Prop :=
  pyIn "today" (pyLower s) = false ∧ pyIn "tomorrow" (pyLower s) = false ∧
  pyIn "next week" (pyLower s) = false ∧ pyIn "next month" (pyLower s) = false

instance (s : String) : Decidable (noRelKeyword s) := by
  unfold noRelKeyword
  infer_instance

/-! ### Format and arithmetic lemmas -/

theorem digitChar_isDigit (n : Nat) : (digitChar n).isDigit = true := by
  unfold digitChar
  have h : n % 10 < 10 := Nat.mod_lt _ (by norm_num)
  interval_cases h' : n % 10 <;> decide

theorem fmtTimestamp_isFormat (d : PyDateTime) :
    isTimestampFormat (fmtTimestamp d) = true := by
  show isTimestampFormat (fmtTimestamp d) = true
  unfold isTimestampFormat fmtTimestamp
  simp [List.all, digitChar_isDigit]

theorem nextDay_time (d : PyDateTime) :
    (nextDay d).hour = d.hour ∧ (nextDay d).minute = d.minute ∧
    (nextDay d).second = d.second := by
  unfold nextDay
  split
  · exact ⟨rfl, rfl, rfl⟩
  · split
    · exact ⟨rfl, rfl, rfl⟩
    · exact ⟨rfl, rfl, rfl⟩

/-! ### Claims C5, C6, C7 -/

/-- Claim C5: at any fixed current time, the resolver's value for
"tomorrow" is the calendar successor of its value for "today" with the
time of day unchanged (the date parts differ by exactly one day), its
value for "next week" is exactly 7 days after now, and its value for
"next month" is exactly 30 days after now. -/
theorem claim_C5_relative_dates (now : PyDateTime)
    (cal : String → Option PyDateTime) :
    parse_dateDT now cal "today" = now ∧
    parse_dateDT now cal "tomorrow" = nextDay (parse_dateDT now cal "today") ∧
    ((nextDay now).hour = now.hour ∧ (nextDay now).minute = now.minute ∧
      (nextDay now).second = now.second) ∧
    parse_dateDT now cal "next week" = addDays now 7 ∧
    parse_dateDT now cal "next month" = addDays now 30 := by
  have h1 : pyIn "today" (pyLower "today") = true := by decide
  have h2 : pyIn "today" (pyLower "tomorrow") = false := by decide
  have h3 : pyIn "tomorrow" (pyLower "tomorrow") = true := by decide
  have h4 : pyIn "today" (pyLower "next week") = false := by decide
  have h5 : pyIn "tomorrow" (pyLower "next week") = false := by decide
  have h6 : pyIn "next week" (pyLower "next week") = true := by decide
  have h7 : pyIn "today" (pyLower "next month") = false := by decide
  have h8 : pyIn "tomorrow" (pyLower "next month") = false := by decide
  have h9 : pyIn "next week" (pyLower "next month") = false := by decide
  have h10 : pyIn "next month" (pyLower "next month") = true := by decide
  refine ⟨?_, ?_, nextDay_time now, ?_, ?_⟩ <;>
    simp [parse_dateDT, addDays, h1, h2, h3, h4, h5, h6, h7, h8, h9, h10]

/-- Claim C6: the resolver is total — for every input it returns a value
formatted exactly as `YYYY-MM-DD HH:MM:SS+00:00` with the fixed literal
suffix `+00:00` — and on a calendar-parse failure (no relative keyword
matched and the calendar parser raises) it returns `now + 1 day`. -/
theorem claim_C6_total_and_format (now : PyDateTime)
    (cal : String → Option PyDateTime) (s : String) :
    isTimestampFormat (parse_date now cal s) = true ∧
    (noRelKeyword s → cal s = none →
      parse_date now cal s = fmtTimestamp (addDays now 1)) := by
  constructor
  · exact fmtTimestamp_isFormat _
  · intro hkw hcal
    obtain ⟨h1, h2, h3, h4⟩ := hkw
    unfold parse_date parse_dateDT
    simp only [h1, h2, h3, h4, Bool.false_eq_true, if_false, hcal]

/-- Claim C6 witness: a concrete unparseable input falls back to the next
day and is well-formatted. -/
theorem claim_C6_witness :
    isTimestampFormat (parse_date ⟨2025, 12, 31, 18, 5, 7⟩ (fun _ => none) "gibberish") = true ∧
    parse_date ⟨2025, 12, 31, 18, 5, 7⟩ (fun _ => none) "gibberish" =
      fmtTimestamp (addDays ⟨2025, 12, 31, 18, 5, 7⟩ 1) := by
  have h := claim_C6_total_and_format ⟨2025, 12, 31, 18, 5, 7⟩ (fun _ => none) "gibberish"
  exact ⟨h.1, h.2 (by decide) rfl⟩

/-- Claim C7: when the resolver falls through to general calendar-string
parsing, a parsed value with a nonzero time of day is returned unchanged
(the explicit time is preserved), while a parsed value with a zero time
of day has its hour forced to 9. -/
theorem claim_C7_general_parse_time (now : PyDateTime)
    (cal : String → Option PyDateTime) (s : String) (d : PyDateTime)
    (hkw : noRelKeyword s) (hcal : cal s = some d) :
    (¬(d.hour = 0 ∧ d.minute = 0 ∧ d.second = 0) → parse_dateDT now cal s = d) ∧
    ((d.hour = 0 ∧ d.minute = 0 ∧ d.second = 0) →
      parse_dateDT now cal s = { d with hour := 9 }) := by
  obtain ⟨h1, h2, h3, h4⟩ := hkw
  constructor
  · intro hne
    unfold parse_dateDT
    simp only [h1, h2, h3, h4, Bool.false_eq_true, if_false, hcal]
    exact if_neg hne
  · intro hz
    unfold parse_dateDT
    simp only [h1, h2, h3, h4, Bool.false_eq_true, if_false, hcal]
    exact if_pos hz

/-- Claim C7 witness: a concrete date phrase with an explicit 3pm time is
resolved preserving that time. -/
theorem claim_C7_witness :
    parse_dateDT ⟨2025, 8, 1, 12, 0, 0⟩
      (fun s => if s = "aug 15 3pm" then some ⟨2025, 8, 15, 15, 0, 0⟩ else none)
      "aug 15 3pm" = ⟨2025, 8, 15, 15, 0, 0⟩ := by
  exact (claim_C7_general_parse_time ⟨2025, 8, 1, 12, 0, 0⟩
    (fun s => if s = "aug 15 3pm" then some ⟨2025, 8, 15, 15, 0, 0⟩ else none)
    "aug 15 3pm" ⟨2025, 8, 15, 15, 0, 0⟩ (by decide) rfl).1 (by decide)

/-! ## A small regex engine with Python `re` semantics -/

/-- Regular expressions as used by the patterns of `app.py`: character
classes, sequencing, prioritized alternation, greedy/lazy option, greedy or
lazy repetition of a character class, numbered capture groups, the word
boundary `\b` and the end anchor `$`. -/
inductive RE where
  | eps : RE
  | cls : (Char → Bool) → RE
  | seq : RE → RE → RE
  | alt : RE → RE → RE
  | opt : Bool → RE → RE
  | starC : Bool → (Char → Bool) → RE
  | grp : Nat → RE → RE
  | wordB : RE
  | eosA : RE

/-- Recorded capture groups: group index paired with captured text. -/
def Caps : Type := List (Nat × List Char)

/-- First success over a list of candidates. -/
def firstSome {α β : Type} : List α → (α → Option β) → Option β
  | [], _ => none
  | a :: t, f => match f a with | some b => some b | none => firstSome t f

/-- Is the current position a `\b` word boundary?  `prev` is the character
before the position (`none` at the start of the string). -/
def atWordBoundary (prev : Option Char) (s : List Char) : Bool :=
  (match prev with | some c => isPyWord c | none => false)
    != (match s.head? with | some c => isPyWord c | none => false)

/-- The character preceding the position reached after consuming `n`
characters of `s`; `prev` when `n = 0`. -/
def prevAfter (prev : Option Char) (s : List Char) (n : Nat) : Option Char :=
  match (s.take n).getLast? with
  | some c => some c
  | none => prev

/-- The backtracking matcher.  `M re prev s caps k` tries to match `re` at
the start of `s` (`prev` is the character just before `s`, `caps` the
captures recorded so far) and calls the continuation `k` with the new
context, the remaining suffix and the updated captures, trying the ways of
matching in Python's priority order (earlier alternative first, greedy
repetition longest first, lazy repetition shortest first); the first
success wins. -/
def M {ρ : Type} : RE → Option Char → List Char → Caps →
    (Option Char → List Char → Caps → Option ρ) → Option ρ
  | .eps, prev, s, caps, k => k prev s caps
  | .cls p, _, s, caps, k =>
    match s with
    | [] => none
    | c :: rest => if p c then k (some c) rest caps else none
  | .seq a b, prev, s, caps, k =>
    M a prev s caps (fun p2 s2 c2 => M b p2 s2 c2 k)
  | .alt a b, prev, s, caps, k =>
    match M a prev s caps k with
    | some r => some r
    | none => M b prev s caps k
  | .opt g a, prev, s, caps, k =>
    if g then
      match M a prev s caps k with
      | some r => some r
      | none => k prev s caps
    else
      match k prev s caps with
      | some r => some r
      | none => M a prev s caps k
  | .starC g p, prev, s, caps, k =>
    let run := (s.takeWhile p).length
    let counts := if g then (List.range (run + 1)).reverse else List.range (run + 1)
    firstSome counts (fun n => k (prevAfter prev s n) (s.drop n) caps)
  | .grp i a, prev, s, caps, k =>
    M a prev s caps (fun p2 s2 c2 => k p2 s2 ((i, s.take (s.length - s2.length)) :: c2))
  | .wordB, prev, s, caps, k =>
    if atWordBoundary prev s then k prev s caps else none
  | .eosA, prev, s, caps, k =>
    if s.isEmpty then k prev s caps else none

/-- `re.search` position scan: try a match at each start position,
leftmost first; on success return the captures of the priority-first
match. -/
def reSearchAux (re : RE) (prev : Option Char) (s : List Char) : Option Caps :=
  match M re prev s [] (fun _ _ caps => some caps) with
  | some caps => some caps
  | none =>
    match s with
    | [] => none
    | c :: t => reSearchAux re (some c) t

/-- `re.search(re, s)`, returning the captures of the match, if any. -/
def reSearch (re : RE) (s : String) : Option Caps :=
  reSearchAux re none s.data

/-- The captured text of group `i`. -/
def grpGet (caps : Caps) (i : Nat) : Option (List Char) :=
  match List.find? (fun p => p.1 == i) caps with
  | some p => some p.2
  | none => none

/-- `re.match(re, s)`: does `re` match at the very start of `s`? -/
def reMatchStart (re : RE) (s : String) : Bool :=
  (M re none s.data [] (fun _ _ _ => some ())).isSome

/-- `re.sub` scan: replace every non-overlapping match of `re` in `s` by
`repl`, scanning left to right.  An empty match substitutes and then
copies one character (no pattern of the source can match empty; the case
is included for completeness).  The fuel argument only bounds the
recursion depth: every step either stops or consumes at least one
character, so the initial fuel `s.length + 1` is never exhausted. -/
def reSubFuel (re : RE) (repl : List Char) : Nat → Option Char → List Char → List Char
  | 0, _, s => s
  | fuel + 1, prev, s =>
    match M re prev s [] (fun _ rest _ => some rest.length) with
    | some restLen =>
      if s.length - restLen = 0 then
        match s with
        | [] => repl
        | c :: t => repl ++ c :: reSubFuel re repl fuel (some c) t
      else
        repl ++ reSubFuel re repl fuel (prevAfter prev s (s.length - restLen))
          (s.drop (s.length - restLen))
    | none =>
      match s with
      | [] => []
      | c :: t => c :: reSubFuel re repl fuel (some c) t

/-- `re.sub` on character lists. -/
def reSubCh (re : RE) (repl : List Char) (s : List Char) : List Char :=
  reSubFuel re repl (s.length + 1) none s

/-- `re.sub(re, repl, s)`. -/
def reSub (re : RE) (repl : String) (s : String) : String :=
  String.mk (reSubCh re repl.data s.data)

/-! ### Pattern building blocks -/

/-- Case-sensitive literal character. -/
def chr (c : Char) : RE := .cls (fun x => x == c)

/-- Case-insensitive literal character (for `re.IGNORECASE` patterns). -/
def ichr (c : Char) : RE := .cls (fun x => x.toLower == c.toLower)

/-- Case-sensitive literal string. -/
def litS (s : String) : RE := s.data.foldr (fun c r => .seq (chr c) r) .eps

/-- Case-insensitive literal string. -/
def litI (s : String) : RE := s.data.foldr (fun c r => .seq (ichr c) r) .eps

/-- Ordered alternation over a list (earlier alternatives take priority,
as in Python). -/
def altList : List RE → RE
  | [] => .cls (fun _ => false)
  | [r] => r
  | r :: t => .alt r (altList t)

/-- `\d+` (greedy). -/
def dPlus : RE := .seq (.cls Char.isDigit) (.starC true Char.isDigit)

/-- `\s+` (greedy). -/
def sPlus : RE := .seq (.cls isPySpace) (.starC true isPySpace)

/-- `\s*` (greedy). -/
def sStar : RE := .starC true isPySpace

/-- The `.` class: any character but newline. -/
def dotCls (c : Char) : Bool := c != '\n'

/-- `.*` (greedy). -/
def dotStar : RE := .starC true dotCls

/-- `.+` (greedy). -/
def dotPlusG : RE := .seq (.cls dotCls) (.starC true dotCls)

/-- `.+?` (lazy). -/
def dotPlusL : RE := .seq (.cls dotCls) (.starC false dotCls)

/-! ## The patterns of `app.py`, transcribed -/

/-- `\d+(?:\.\d{2})?` — the numeric amount body shared by the amount
patterns. -/
def decimalRE : RE :=
  .seq dPlus (.opt true (.seq (chr '.') (.seq (.cls Char.isDigit) (.cls Char.isDigit))))

/-- `\$(\d+(?:\.\d{2})?)` (`app.py` 72). -/
def p_amount1 : RE := .seq (chr '$') (.grp 1 decimalRE)

/-- `amount\s+(?:of\s+)?\$?(\d+(?:\.\d{2})?)` (`app.py` 73). -/
def p_amount2 : RE :=
  .seq (litI "amount") (.seq sPlus (.seq (.opt true (.seq (litI "of") sPlus))
    (.seq (.opt true (chr '$')) (.grp 1 decimalRE))))

/-- `(\d+(?:\.\d{2})?)\s*dollars?` (`app.py` 74). -/
def p_amount3 : RE :=
  .seq (.grp 1 decimalRE) (.seq sStar (.seq (litI "dollar") (.opt true (ichr 's'))))

/-- `pay\s+\$?(\d+(?:\.\d{2})?)` (`app.py` 75). -/
def p_amount4 : RE :=
  .seq (litI "pay") (.seq sPlus (.seq (.opt true (chr '$')) (.grp 1 decimalRE)))

/-- The ordered `amount_patterns` list. -/
def amountPatterns : List RE := [p_amount1, p_amount2, p_amount3, p_amount4]

/-- The month-name alternation of the first date pattern. -/
def monthAlt : RE :=
  altList [litI "january", litI "february", litI "march", litI "april",
    litI "may", litI "june", litI "july", litI "august", litI "september",
    litI "october", litI "november", litI "december"]

/-- `\d{1,2}` (greedy). -/
def d12 : RE := .seq (.cls Char.isDigit) (.opt true (.cls Char.isDigit))

/-- `\d{4}`. -/
def d4 : RE :=
  .seq (.cls Char.isDigit) (.seq (.cls Char.isDigit)
    (.seq (.cls Char.isDigit) (.cls Char.isDigit)))

/-- `\d{2,4}` (greedy). -/
def d24 : RE :=
  .seq (.cls Char.isDigit) (.seq (.cls Char.isDigit)
    (.opt true (.seq (.cls Char.isDigit) (.opt true (.cls Char.isDigit)))))

/-- `(?:on|by|due)\s+`. -/
def onByDue : RE := .seq (altList [litI "on", litI "by", litI "due"]) sPlus

/-- `(?:,?\s+\d{4})?`. -/
def yearOpt : RE := .opt true (.seq (.opt true (chr ',')) (.seq sPlus d4))

/-- `(?:on|by|due)\s+((?:january|…|december)\s+\d{1,2}(?:,?\s+\d{4})?)`
(`app.py` 89). -/
def p_date1 : RE := .seq onByDue (.grp 1 (.seq monthAlt (.seq sPlus (.seq d12 yearOpt))))

/-- The dash-or-slash separator class of the numeric date patterns. -/
def sepCls : RE := .cls (fun c => c == '-' || c == '/')

/-- the second date pattern, `on|by|due`, then digits separated by dash or slash with an optional dash-or-slash year part (`app.py` 90). -/
def p_date2 : RE :=
  .seq onByDue (.grp 1 (.seq d12 (.seq sepCls (.seq d12 (.opt true (.seq sepCls d24))))))

/-- `(?:on|by|due)\s+(\d{4}-\d{1,2}-\d{1,2})` (`app.py` 91). -/
def p_date3 : RE :=
  .seq onByDue (.grp 1 (.seq d4 (.seq (chr '-') (.seq d12 (.seq (chr '-') d12)))))

/-- `(tomorrow|today|next\s+week|next\s+month)` (`app.py` 92). -/
def p_date4 : RE :=
  .grp 1 (altList [litI "tomorrow", litI "today",
    .seq (litI "next") (.seq sPlus (litI "week")),
    .seq (litI "next") (.seq sPlus (litI "month"))])

/-- `(?:in\s+)?(\d+)\s+days?` (`app.py` 93). -/
def p_date5 : RE :=
  .seq (.opt true (.seq (litI "in") sPlus))
    (.seq (.grp 1 dPlus) (.seq sPlus (.seq (litI "day") (.opt true (ichr 's')))))

/-- The ordered `date_patterns` list. -/
def datePatterns : List RE := [p_date1, p_date2, p_date3, p_date4, p_date5]

/-- The fixed category vocabulary alternation. -/
def categoryAlt : RE :=
  altList [litI "rent", litI "electricity", litI "water", litI "gas",
    .seq (litI "credit") (.seq sPlus (litI "card")), litI "loan",
    litI "mortgage", litI "insurance", litI "subscription", litI "phone",
    litI "internet"]

/-- `(?:for|category)\s+(rent|…|internet)` (`app.py` 113). -/
def p_cat1 : RE :=
  .seq (altList [litI "for", litI "category"]) (.seq sPlus (.grp 1 categoryAlt))

/-- `(rent|…|internet)\s+(?:payment|bill)` (`app.py` 114). -/
def p_cat2 : RE :=
  .seq (.grp 1 categoryAlt) (.seq sPlus (altList [litI "payment", litI "bill"]))

/-- `(weekly|monthly|yearly|daily)\s+(?:reminder|payment)` (`app.py` 125). -/
def p_rec1 : RE :=
  .seq (.grp 1 (altList [litI "weekly", litI "monthly", litI "yearly", litI "daily"]))
    (.seq sPlus (altList [litI "reminder", litI "payment"]))

/-- `(?:every|repeat)\s+(\d+)\s+(days?|weeks?|months?|years?)` (`app.py` 126). -/
def p_rec2 : RE :=
  .seq (altList [litI "every", litI "repeat"])
    (.seq sPlus (.seq (.grp 1 dPlus)
      (.seq sPlus (.grp 2 (altList [.seq (litI "day") (.opt true (ichr 's')),
        .seq (litI "week") (.opt true (ichr 's')),
        .seq (litI "month") (.opt true (ichr 's')),
        .seq (litI "year") (.opt true (ichr 's'))])))))

/-- `\b(?:create|add|set|new|reminder|for|to|pay|payment|bill)\b`
(`app.py` 152). -/
def p_tsub1 : RE :=
  .seq .wordB (.seq (altList [litI "create", litI "add", litI "set", litI "new",
    litI "reminder", litI "for", litI "to", litI "pay", litI "payment", litI "bill"]) .wordB)

/-- `\$?\d+(?:\.\d{2})?\s*(?:dollars?)?` (`app.py` 154, no flag). -/
def p_tsub2 : RE :=
  .seq (.opt true (chr '$')) (.seq decimalRE
    (.seq sStar (.opt true (.seq (litS "dollar") (.opt true (chr 's'))))))

/-- `\b(?:on|by|due|tomorrow|today|next\s+week|next\s+month)\b.*`
(`app.py` 156). -/
def p_tsub3 : RE :=
  .seq .wordB (.seq (altList [litI "on", litI "by", litI "due", litI "tomorrow",
    litI "today", .seq (litI "next") (.seq sPlus (litI "week")),
    .seq (litI "next") (.seq sPlus (litI "month"))]) (.seq .wordB dotStar))

/-- the residual numeric-date removal pattern of the title cleaning, digits separated by dash or slash with an optional year part (`app.py` 157, no flag). -/
def p_tsub4 : RE := .seq d12 (.seq sepCls (.seq d12 (.opt true (.seq sepCls d24))))

/-- `(?:january|…|december)\s+\d{1,2}(?:,?\s+\d{4})?` (`app.py` 158). -/
def p_tsub5 : RE := .seq monthAlt (.seq sPlus (.seq d12 yearOpt))

/-- `in\s+\d+\s+days?` (`app.py` 159). -/
def p_tsub6 : RE :=
  .seq (litI "in") (.seq sPlus (.seq dPlus (.seq sPlus
    (.seq (litI "day") (.opt true (ichr 's'))))))

/-- `(?:delete|remove|cancel)`. -/
def delVerb : RE := altList [litS "delete", litS "remove", litS "cancel"]

/-- `(?:delete|remove|cancel)\s+reminder(?:\s*:\s*|\s+)(.+)` (`app.py` 183). -/
def pd1 : RE :=
  .seq delVerb (.seq sPlus (.seq (litS "reminder")
    (.seq (.alt (.seq sStar (.seq (chr ':') sStar)) sPlus) (.grp 1 dotPlusG))))

/-- `(?:delete|remove|cancel)\s+(.+?)(?:\s+reminder)?$` (`app.py` 184). -/
def pd2 : RE :=
  .seq delVerb (.seq sPlus (.seq (.grp 1 dotPlusL)
    (.seq (.opt true (.seq sPlus (litS "reminder"))) .eosA)))

/-- `remove\s+(.+)` (`app.py` 185). -/
def pd3 : RE := .seq (litS "remove") (.seq sPlus (.grp 1 dotPlusG))

/-- `cancel\s+(.+)` (`app.py` 186). -/
def pd4 : RE := .seq (litS "cancel") (.seq sPlus (.grp 1 dotPlusG))

/-- The ordered `delete_patterns` list. -/
def deletePatterns : List RE := [pd1, pd2, pd3, pd4]

/-- `\b(?:reminder|the|my)\b` (`app.py` 193 and 207, no flag). -/
def strayRE : RE :=
  .seq .wordB (.seq (altList [litS "reminder", litS "the", litS "my"]) .wordB)

/-- `(?:mark|complete)\s+(.+?)(?:\s+as\s+done)?$` (`app.py` 204). -/
def pMark : RE :=
  .seq (altList [litS "mark", litS "complete"]) (.seq sPlus (.seq (.grp 1 dotPlusL)
    (.seq (.opt true (.seq sPlus (.seq (litS "as") (.seq sPlus (litS "done"))))) .eosA)))

/-- `(?:create|add|set|new)\s+reminder\s+(.+)` (`app.py` 213). -/
def pc1 : RE :=
  .seq (altList [litI "create", litI "add", litI "set", litI "new"])
    (.seq sPlus (.seq (litI "reminder") (.seq sPlus (.grp 1 dotPlusG))))

/-- `remind\s+me\s+(?:to\s+)?(.+)` (`app.py` 214). -/
def pc2 : RE :=
  .seq (litI "remind") (.seq sPlus (.seq (litI "me") (.seq sPlus
    (.seq (.opt true (.seq (litI "to") sPlus)) (.grp 1 dotPlusG)))))

/-- `set\s+(?:a\s+)?reminder\s+(.+)` (`app.py` 215). -/
def pc3 : RE :=
  .seq (litI "set") (.seq sPlus (.seq (.opt true (.seq (litI "a") sPlus))
    (.seq (litI "reminder") (.seq sPlus (.grp 1 dotPlusG)))))

/-- `add\s+reminder\s+(.+)` (`app.py` 216). -/
def pc4 : RE :=
  .seq (litI "add") (.seq sPlus (.seq (litI "reminder") (.seq sPlus (.grp 1 dotPlusG))))

/-- The ordered `create_patterns` list. -/
def createPatterns : List RE := [pc1, pc2, pc3, pc4]

/-! ## The field extractor `extract_reminder_info` (`app.py` 59-174) -/

/-- The amount-extraction loop (`app.py` 78-85): the first pattern whose
match's first group parses as a float wins (a `ValueError` continues with
the next pattern); no match at all leaves the amount 0. -/
def extractAmountGo : List RE → String → ℚ
  | [], _ => 0
  | p :: rest, text =>
    match reSearch p text with
    | some caps =>
      match pyFloatCh ((grpGet caps 1).getD []) with
      | some q => q
      | none => extractAmountGo rest text
    | none => extractAmountGo rest text

/-- The extracted amount. -/
def extractAmount (text : String) : ℚ := extractAmountGo amountPatterns text

/-- The date-extraction loop (`app.py` 96-105): the first matching
pattern's first group is taken; a group starting with a digit is read with
`int(...)` as a day count from now (`int` raises `ValueError` on the mixed
numeric-date groups such as `3/15`); any other group goes through
`parse_date`. -/
def extractDueDateGo (now : PyDateTime) (cal : String → Option PyDateTime) :
    List RE → String → Except String (Option String)
  | [], _ => .ok none
  | p :: rest, text =>
    match reSearch p text with
    | some caps =>
      let ds := (grpGet caps 1).getD []
      if reMatchStart dPlus (String.mk ds) then
        match pyIntCh ds with
        | some n => .ok (some (fmtTimestamp (addDays now n)))
        | none => .error "ValueError"
      else
        .ok (some (parse_date now cal (String.mk ds)))
    | none => extractDueDateGo now cal rest text

/-- The extracted due date before the tomorrow default. -/
def extractDueDate (now : PyDateTime) (cal : String → Option PyDateTime)
    (text : String) : Except String (Option String) :=
  extractDueDateGo now cal datePatterns text

/-- Category extraction (`app.py` 117-121): the first matching pattern's
group with spaces replaced by underscores. -/
def extractCategory (text : String) : Option String :=
  match reSearch p_cat1 text with
  | some caps => some (pyReplace (String.mk ((grpGet caps 1).getD [])) ' ' '_')
  | none =>
    match reSearch p_cat2 text with
    | some caps => some (pyReplace (String.mk ((grpGet caps 1).getD [])) ' ' '_')
    | none => none

/-- The shared body of the recurrence loop (`app.py` 131-147), applied to
the captures of the first matching recurrence pattern.  A first group
outside the fixed keyword list is read with `int(...)` (`ValueError` on a
non-digit group); a missing second group is the `IndexError` of
`match.group(2)`.  The unit tests are Python's case-sensitive substring
tests on the captured unit. -/
def recurBody (caps : Caps) : Except String (Option String × Option Nat) :=
  if String.mk ((grpGet caps 1).getD []) ∈ ["weekly", "monthly", "yearly", "daily"] then
    .ok (some (String.mk ((grpGet caps 1).getD [])), none)
  else
    match pyIntCh ((grpGet caps 1).getD []) with
    | none => .error "ValueError"
    | some n =>
      match grpGet caps 2 with
      | none => .error "IndexError"
      | some g2l =>
        if pyIn "day" (String.mk g2l) then .ok (some "custom", some n)
        else if pyIn "week" (String.mk g2l) then .ok (some "custom", some (n * 7))
        else if pyIn "month" (String.mk g2l) then .ok (some "custom", some (n * 30))
        else if pyIn "year" (String.mk g2l) then .ok (some "custom", some (n * 365))
        else .ok (none, some n)

/-- Recurrence extraction (`app.py` 129-147): the body runs on the first
matching pattern; no match leaves both fields absent. -/
def extractRecurrence (text : String) : Except String (Option String × Option Nat) :=
  match reSearch p_rec1 text with
  | some caps => recurBody caps
  | none =>
    match reSearch p_rec2 text with
    | some caps => recurBody caps
    | none => .ok (none, none)

/-- The cleaned title text (`app.py` 149-166): remove command words,
amount tokens, everything from a trailing temporal marker, residual date
tokens and the category reference, then collapse whitespace, strip it and
trim surrounding punctuation. -/
def cleanedTitle (category : Option String) (text : String) : String :=
  let t1 := reSub p_tsub1 "" text
  let t2 := reSub p_tsub2 "" t1
  let t3 := reSub p_tsub3 "" t2
  let t4 := reSub p_tsub4 "" t3
  let t5 := reSub p_tsub5 "" t4
  let t6 := reSub p_tsub6 "" t5
  let t7 := match category with
    | some c => reSub (litI (pyReplace c '_' ' ')) "" t6
    | none => t6
  let t8 := reSub sPlus " " t7
  let t9 := String.mk (stripP isPySpace t8.data)
  String.mk (stripP (fun c => c == '.' || c == ',' || c == '!' || c == '?') t9.data)

/-- The default title when cleaning leaves nothing (`app.py` 172). -/
def fallbackTitle (category : Option String) : String :=
  match category with
  | some c => pyTitle (pyReplace c '_' ' ') ++ " Payment"
  | none => "Payment Reminder"

/-- The extracted title (`app.py` 168-172). -/
def extractTitle (category : Option String) (text : String) : String :=
  if cleanedTitle category text = "" then fallbackTitle category
  else cleanedTitle category text

/-- The `info` dictionary returned by `extract_reminder_info`. -/
structure Fields where
  title : String
  amount : ℚ
  due_date : Option String
  category : Option String
  recurrence : Option String
  custom_recurrence_days : Option Nat
deriving Repr, DecidableEq

/-- The tomorrow default of `app.py` 107-109: Python's falsiness test
re-defaults an unset (or empty) due date to the resolution of
"tomorrow". -/
def dueDefault (now : PyDateTime) (cal : String → Option PyDateTime)
    (due0 : Option String) : Option String :=
  match due0 with
  | some d => if d = "" then some (parse_date now cal "tomorrow") else some d
  | none => some (parse_date now cal "tomorrow")

/-- `extract_reminder_info` (`app.py` 59-174).  A `.error` result models
an uncaught Python exception escaping the function. -/
def extract_reminder_info (now : PyDateTime) (cal : String → Option PyDateTime)
    (text : String) : Except String Fields :=
  match extractDueDate now cal text with
  | .error e => .error e
  | .ok due0 =>
    match extractRecurrence text with
    | .error e => .error e
    | .ok (recur, days) =>
      .ok ⟨extractTitle (extractCategory text) text, extractAmount text,
        dueDefault now cal due0, extractCategory text, recur, days⟩

/-! ## The intent classifier `parse_reminder_request` (`app.py` 176-238) -/

/-- A classified intent (the dictionary returned by
`parse_reminder_request`); a field is `none` when the corresponding key is
absent or holds Python `None`. -/
structure ReminderIntent where
  action : String
  title : Option String
  amount : Option ℚ
  due_date : Option String
  category : Option String
  recurrence : Option String
  custom_recurrence_days : Option Nat
deriving Repr, DecidableEq

/-- The `{"action": "none"}` intent. -/
def noneIntent : ReminderIntent := ⟨"none", none, none, none, none, none, none⟩

/-- Title cleanup shared by the delete and mark-done branches
(`app.py` 192-193, 206-207): strip, remove stray words, strip again. -/
def cleanCmdTitle (g : List Char) : String :=
  String.mk (stripP isPySpace (reSubCh strayRE [] (stripP isPySpace g)))

/-- The first pattern of the list that matches, with its captures. -/
def firstMatch : List RE → String → Option Caps
  | [], _ => none
  | p :: rest, s =>
    match reSearch p s with
    | some caps => some caps
    | none => firstMatch rest s

/-- The list-command phrases (`app.py` 199). -/
def listCommands : List String :=
  ["list reminders", "show reminders", "my reminders", "view reminders"]

/-- The mark-as-done phrases (`app.py` 203). -/
def markCommands : List String :=
  ["mark as done", "complete reminder", "payment done"]

/-- The create branch (`app.py` 211-234): the first matching create
pattern's rest goes through the field extractor; no match yields the
`none` action. -/
def createCheck (now : PyDateTime) (cal : String → Option PyDateTime)
    (user_input : String) : Except String ReminderIntent :=
  match firstMatch createPatterns user_input with
  | some caps =>
    (extract_reminder_info now cal (String.mk ((grpGet caps 1).getD []))).map
      (fun i => ⟨"create", some i.title, some i.amount, i.due_date, i.category,
        i.recurrence, i.custom_recurrence_days⟩)
  | none => .ok noneIntent

/-- The classifier after the delete branch (`app.py` 198-234): list
commands, then mark-as-done, then create. -/
def classifyRest (now : PyDateTime) (cal : String → Option PyDateTime)
    (user_input lower : String) : Except String ReminderIntent :=
  if listCommands.any (fun c => pyIn c lower) then
    .ok ⟨"list", none, none, none, none, none, none⟩
  else if markCommands.any (fun c => pyIn c lower) then
    match reSearch pMark lower with
    | some caps =>
      let t := cleanCmdTitle ((grpGet caps 1).getD [])
      if t = "" then createCheck now cal user_input
      else .ok ⟨"mark_done", some t, none, none, none, none, none⟩
    | none => createCheck now cal user_input
  else createCheck now cal user_input

/-- The body of `parse_reminder_request` before its exception handler
(`app.py` 178-234): a first matching delete pattern with a non-empty
cleaned title yields the delete intent, a matching delete pattern with an
empty cleaned title breaks out of the loop, and control otherwise falls
through to the remaining branches.  `.error` is a Python exception
reaching the handler. -/
def parse_reminder_requestE (now : PyDateTime) (cal : String → Option PyDateTime)
    (user_input : String) : Except String ReminderIntent :=
  let lower := pyLower user_input
  match firstMatch deletePatterns lower with
  | some caps =>
    let t := cleanCmdTitle ((grpGet caps 1).getD [])
    if t = "" then classifyRest now cal user_input lower
    else .ok ⟨"delete", some t, none, none, none, none, none⟩
  | none => classifyRest now cal user_input lower

/-- `parse_reminder_request` with its `except` handler (`app.py` 236-238):
any exception is downgraded to the `none` action. -/
def parse_reminder_request (now : PyDateTime) (cal : String → Option PyDateTime)
    (user_input : String) : ReminderIntent :=
  match parse_reminder_requestE now cal user_input with
  | .ok r => r
  | .error _ => noneIntent

/-! ## The delete-by-title store operation (`app.py` 283-341) -/

/-- The result of a store mutation as reported to the dispatcher. -/
structure OpResult where
  success : Bool
  message : String
  deleted_count : Nat
deriving Repr, DecidableEq

/-- The store's `ilike '%pat%'` filter: case-insensitive containment. -/
def ilikeContains (pat row : String) : Bool :=
  pyIn (pyLower pat) (pyLower row)

/-- `delete_reminder(title=...)` (`app.py` 293-335), with the store
modelled as the list of stored titles.  When neither the partial nor the
exact search matches, all titles are fetched and the failure message
suggests up to three of them; the suggestion filter is transcribed exactly
as written in the source, where the comprehension variable `title` shadows
the query title, so each lower-cased stored title is tested against its
own words. -/
def delete_reminder (db : List String) (title : String) : OpResult :=
  let search1 := db.filter (fun row => ilikeContains title row)
  let found := if search1.isEmpty then db.filter (fun row => row == title) else search1
  if found.isEmpty then
    if db.isEmpty then
      ⟨false, "No reminder found matching '" ++ title ++ "'", 0⟩
    else
      let reminder_titles := db.map pyLower
      let suggestions := reminder_titles.filter
        (fun t => (pySplit t).any (fun w => pyIn w t))
      if suggestions.isEmpty then
        ⟨false, "No reminder found matching '" ++ title ++ "'", 0⟩
      else
        ⟨false, "No reminder found matching '" ++ title ++ "'. Did you mean: "
          ++ String.intercalate ", " (suggestions.take 3) ++ "?", 0⟩
  else
    let deleted0 := db.filter (fun row => ilikeContains title row)
    let deleted := if deleted0.isEmpty then db.filter (fun row => row == title) else deleted0
    if deleted.length > 0 then
      if deleted.length = 1 then
        ⟨true, "✅ Reminder '" ++ deleted.headD "" ++ "' deleted successfully!", 1⟩
      else
        ⟨true, "✅ " ++ toString deleted.length ++ " reminders matching '" ++ title
          ++ "' deleted successfully!", deleted.length⟩
    else
      ⟨false, "Failed to delete reminder matching '" ++ title ++ "'", 0⟩

/-- Do two strings share a whitespace-separated word? -/
def sharesWord (a b : String) : Bool :=
  (pySplit a).any (fun w => (pySplit b).contains w)

/-! ## Invariant lemmas for the field extractor -/

theorem pyFloatParts_nonneg (intPart rest : List Char) (q : ℚ)
    (h : pyFloatParts intPart rest = some q) : 0 ≤ q := by
  rcases rest with _ | ⟨c, frac⟩
  · have h1 : (pyIntCh intPart).map (fun n => (n : ℚ)) = some q := h
    rcases hpi : pyIntCh intPart with _ | n <;> rw [hpi] at h1
    · exact Option.noConfusion h1
    · have h2 : some ((n : ℚ)) = some q := h1
      injection h2 with h3
      exact le_of_le_of_eq (Nat.cast_nonneg n) h3
  · have h1 : (if !intPart.isEmpty && intPart.all Char.isDigit && !frac.isEmpty &&
        frac.all Char.isDigit then
        some ((digitsToNatCh intPart : ℚ) + (digitsToNatCh frac : ℚ) / (10 ^ frac.length : ℚ))
      else none) = some q := h
    split at h1
    · injection h1 with h2
      rw [← h2]
      positivity
    · exact absurd h1 (by simp)

theorem pyFloatCh_nonneg (l : List Char) (q : ℚ) (h : pyFloatCh l = some q) :
    0 ≤ q :=
  pyFloatParts_nonneg _ _ q h

theorem extractAmountGo_nonneg (ps : List RE) (text : String) :
    0 ≤ extractAmountGo ps text := by
  induction ps with
  | nil => simp [extractAmountGo]
  | cons p rest ih =>
    unfold extractAmountGo
    split
    · split
      · next q hq => exact pyFloatCh_nonneg _ q hq
      · exact ih
    · exact ih

theorem extractAmount_of_no_match (text : String)
    (h : (amountPatterns.all fun p => (reSearch p text).isNone) = true) :
    extractAmount text = 0 := by
  simp only [amountPatterns, List.all_cons, List.all_nil, Bool.and_true,
    Bool.and_eq_true, Option.isNone_iff_eq_none] at h
  obtain ⟨h1, h2, h3, h4⟩ := h
  simp [extractAmount, extractAmountGo, amountPatterns, h1, h2, h3, h4]

theorem fallbackTitle_ne_empty (category : Option String) :
    fallbackTitle category ≠ "" := by
  cases category with
  | none => simp [fallbackTitle]
  | some c =>
    unfold fallbackTitle
    intro hc
    have hlen := congrArg String.length hc
    rw [String.length_append] at hlen
    have h8 : (" Payment" : String).length = 8 := rfl
    have h0 : ("" : String).length = 0 := rfl
    omega

theorem extractTitle_ne_empty (category : Option String) (text : String) :
    extractTitle category text ≠ "" := by
  unfold extractTitle
  split
  · exact fallbackTitle_ne_empty category
  · assumption

/-- The fixed recurrence keyword values. -/
def fixedRecurrences : List (Option String) :=
  [some "daily", some "weekly", some "monthly", some "yearly"]

/-- Exactly one of the following holds: the recurrence is absent, the
recurrence is a fixed keyword, or the recurrence is `custom` with
`custom_recurrence_days` set. -/
def RecurrenceInvariant (recur : Option String) (days : Option Nat) : Prop :=
  (recur = none ∧ recur ∉ fixedRecurrences ∧ ¬(recur = some "custom" ∧ days ≠ none)) ∨
  (recur ≠ none ∧ recur ∈ fixedRecurrences ∧ ¬(recur = some "custom" ∧ days ≠ none)) ∨
  (recur ≠ none ∧ recur ∉ fixedRecurrences ∧ recur = some "custom" ∧ days ≠ none)

instance (recur : Option String) (days : Option Nat) :
    Decidable (RecurrenceInvariant recur days) := by
  unfold RecurrenceInvariant
  infer_instance


theorem recurBody_invariant (caps : Caps) (recur : Option String) (days : Option Nat)
    (h : recurBody caps = .ok (recur, days)) : RecurrenceInvariant recur days := by
  unfold recurBody at h
  by_cases hmem : String.mk ((grpGet caps 1).getD []) ∈
      (["weekly", "monthly", "yearly", "daily"] : List String)
  · rw [if_pos hmem] at h
    simp only [Except.ok.injEq, Prod.mk.injEq] at h
    obtain ⟨hr, hd⟩ := h
    subst hr
    subst hd
    simp only [List.mem_cons, List.not_mem_nil, or_false] at hmem
    rcases hmem with h1 | h1 | h1 | h1 <;> rw [h1] <;> decide
  · rw [if_neg hmem] at h
    rcases hpi : pyIntCh ((grpGet caps 1).getD []) with _ | n <;> rw [hpi] at h <;>
      simp only [] at h
    · exact absurd h (by simp)
    · rcases hg2 : grpGet caps 2 with _ | g2l <;> rw [hg2] at h <;> simp only [] at h
      · exact absurd h (by simp)
      · by_cases h1 : pyIn "day" (String.mk g2l) = true
        · rw [if_pos h1] at h
          simp only [Except.ok.injEq, Prod.mk.injEq] at h
          obtain ⟨hr, hd⟩ := h
          subst hr
          subst hd
          exact Or.inr (Or.inr ⟨by simp, by decide, rfl, by simp⟩)
        · rw [if_neg h1] at h
          by_cases h2 : pyIn "week" (String.mk g2l) = true
          · rw [if_pos h2] at h
            simp only [Except.ok.injEq, Prod.mk.injEq] at h
            obtain ⟨hr, hd⟩ := h
            subst hr
            subst hd
            exact Or.inr (Or.inr ⟨by simp, by decide, rfl, by simp⟩)
          · rw [if_neg h2] at h
            by_cases h3 : pyIn "month" (String.mk g2l) = true
            · rw [if_pos h3] at h
              simp only [Except.ok.injEq, Prod.mk.injEq] at h
              obtain ⟨hr, hd⟩ := h
              subst hr
              subst hd
              exact Or.inr (Or.inr ⟨by simp, by decide, rfl, by simp⟩)
            · rw [if_neg h3] at h
              by_cases h4 : pyIn "year" (String.mk g2l) = true
              · rw [if_pos h4] at h
                simp only [Except.ok.injEq, Prod.mk.injEq] at h
                obtain ⟨hr, hd⟩ := h
                subst hr
                subst hd
                exact Or.inr (Or.inr ⟨by simp, by decide, rfl, by simp⟩)
              · rw [if_neg h4] at h
                simp only [Except.ok.injEq, Prod.mk.injEq] at h
                obtain ⟨hr, hd⟩ := h
                subst hr
                subst hd
                exact Or.inl ⟨rfl, by decide, by simp⟩

theorem extractRecurrence_invariant (text : String) (recur : Option String)
    (days : Option Nat) (h : extractRecurrence text = .ok (recur, days)) :
    RecurrenceInvariant recur days := by
  unfold extractRecurrence at h
  rcases h1 : reSearch p_rec1 text with _ | caps1 <;> rw [h1] at h <;> simp only [] at h
  · rcases h2 : reSearch p_rec2 text with _ | caps2 <;> rw [h2] at h <;> simp only [] at h
    · simp only [Except.ok.injEq, Prod.mk.injEq] at h
      obtain ⟨hr, hd⟩ := h
      subst hr
      subst hd
      decide
    · exact recurBody_invariant _ _ _ h
  · exact recurBody_invariant _ _ _ h

theorem dueDefault_isSome (now : PyDateTime) (cal : String → Option PyDateTime)
    (due0 : Option String) : (dueDefault now cal due0).isSome = true := by
  rcases due0 with _ | d
  · rfl
  · show (if d = "" then some (parse_date now cal "tomorrow") else some d).isSome = true
    split <;> rfl

/-! ### Claim C3 -/

/-- Claim C3: every `ExtractedFields` record the field extractor returns
has a non-empty title (equal to the category-derived or literal default
when cleaning leaves nothing), a non-negative amount that is 0 when no
amount pattern matches, a populated due date, and exactly one of
{recurrence absent, recurrence a fixed keyword, recurrence custom with
`custom_recurrence_days` set}. -/
theorem claim_C3_field_invariants (now : PyDateTime)
    (cal : String → Option PyDateTime) (text : String) (r : Fields)
    (h : extract_reminder_info now cal text = .ok r) :
    r.title ≠ "" ∧
    (cleanedTitle (extractCategory text) text = "" →
      r.title = fallbackTitle (extractCategory text)) ∧
    0 ≤ r.amount ∧
    ((amountPatterns.all fun p => (reSearch p text).isNone) = true → r.amount = 0) ∧
    r.due_date.isSome = true ∧
    RecurrenceInvariant r.recurrence r.custom_recurrence_days := by
  unfold extract_reminder_info at h
  rcases hd : extractDueDate now cal text with e | due0 <;> rw [hd] at h <;>
    simp only [] at h
  · exact absurd h (by simp)
  · rcases hr : extractRecurrence text with e | ⟨recur, days⟩ <;> rw [hr] at h <;>
      simp only [] at h
    · exact absurd h (by simp)
    · rw [Except.ok.injEq] at h
      subst h
      refine ⟨extractTitle_ne_empty _ _, ?_, extractAmountGo_nonneg _ _,
        fun hall => extractAmount_of_no_match text hall, dueDefault_isSome _ _ _,
        extractRecurrence_invariant _ _ _ hr⟩
      intro hc
      simp [extractTitle, hc]

/-- Concrete fields extracted from the phrase "every 2 weeks". -/
def fieldsDemo : Fields :=
  ⟨"every weeks", 0, some "2025-08-02 12:00:00+00:00", none, some "custom", some 14⟩

/-- Claim C3 witness: the invariants instantiated at the concrete
extraction of the phrase "every 2 weeks". -/
theorem claim_C3_witness :
    fieldsDemo.title ≠ "" ∧
    (cleanedTitle (extractCategory "every 2 weeks") "every 2 weeks" = "" →
      fieldsDemo.title = fallbackTitle (extractCategory "every 2 weeks")) ∧
    0 ≤ fieldsDemo.amount ∧
    ((amountPatterns.all fun p => (reSearch p "every 2 weeks").isNone) = true →
      fieldsDemo.amount = 0) ∧
    fieldsDemo.due_date.isSome = true ∧
    RecurrenceInvariant fieldsDemo.recurrence fieldsDemo.custom_recurrence_days :=
  claim_C3_field_invariants ⟨2025, 8, 1, 12, 0, 0⟩ (fun _ => none) "every 2 weeks"
    fieldsDemo (by rfl)

/-! ### Claim C4 -/

theorem pyIntCh_digits (l : List Char) (n : Nat) (h : pyIntCh l = some n) :
    l.all Char.isDigit = true := by
  unfold pyIntCh at h
  split at h
  · rename_i hc
    exact (Bool.and_eq_true _ _ |>.mp hc).2
  · exact Option.noConfusion h

theorem digits_not_keyword (l : List Char) (hd : l.all Char.isDigit = true) :
    String.mk l ∉ (["weekly", "monthly", "yearly", "daily"] : List String) := by
  intro hmem
  have hd2 : (String.mk l).data.all Char.isDigit = true := hd
  simp only [List.mem_cons, List.not_mem_nil, or_false] at hmem
  rcases hmem with h1 | h1 | h1 | h1 <;> rw [h1] at hd2 <;> exact absurd hd2 (by decide)

/-- Claim C4 (amended): for every phrase matching the numeric recurrence
form — and not the fixed-keyword form — whose unit is captured in
lowercase, the extractor sets recurrence to `custom` and
`custom_recurrence_days` to the captured count scaled by the unit
(days ×1, weeks ×7, months ×30, years ×365).  The restriction to a
lowercase captured unit is forced by the source: the match is
case-insensitive but the unit checks `'day' in group(2)` … are
case-sensitive. -/
theorem claim_C4_numeric_recurrence (text : String) (caps : Caps)
    (g1 g2 : List Char) (n : Nat)
    (h1 : reSearch p_rec1 text = none)
    (h2 : reSearch p_rec2 text = some caps)
    (hg1 : grpGet caps 1 = some g1)
    (hg2 : grpGet caps 2 = some g2)
    (hn : pyIntCh g1 = some n) :
    ((String.mk g2 = "day" ∨ String.mk g2 = "days") →
      extractRecurrence text = .ok (some "custom", some (n * 1))) ∧
    ((String.mk g2 = "week" ∨ String.mk g2 = "weeks") →
      extractRecurrence text = .ok (some "custom", some (n * 7))) ∧
    ((String.mk g2 = "month" ∨ String.mk g2 = "months") →
      extractRecurrence text = .ok (some "custom", some (n * 30))) ∧
    ((String.mk g2 = "year" ∨ String.mk g2 = "years") →
      extractRecurrence text = .ok (some "custom", some (n * 365))) := by
  have hE : extractRecurrence text = recurBody caps := by
    unfold extractRecurrence
    rw [h1]
    simp only []
    rw [h2]
  have hmem := digits_not_keyword g1 (pyIntCh_digits g1 n hn)
  have hcore : recurBody caps =
      (if pyIn "day" (String.mk g2) = true then .ok (some "custom", some n)
       else if pyIn "week" (String.mk g2) = true then .ok (some "custom", some (n * 7))
       else if pyIn "month" (String.mk g2) = true then .ok (some "custom", some (n * 30))
       else if pyIn "year" (String.mk g2) = true then .ok (some "custom", some (n * 365))
       else .ok (none, some n)) := by
    unfold recurBody
    rw [hg1]
    simp only [Option.getD_some]
    rw [if_neg hmem, hn]
    simp only []
    rw [hg2]
  refine ⟨fun hc => ?_, fun hc => ?_, fun hc => ?_, fun hc => ?_⟩ <;>
    rw [hE, hcore] <;> rcases hc with hc | hc <;> rw [hc]
  · simp [show pyIn "day" "day" = true from rfl, Nat.mul_one]
  · simp [show pyIn "day" "days" = true from rfl, Nat.mul_one]
  · simp [show pyIn "day" "week" = false from rfl,
      show pyIn "week" "week" = true from rfl]
  · simp [show pyIn "day" "weeks" = false from rfl,
      show pyIn "week" "weeks" = true from rfl]
  · simp [show pyIn "day" "month" = false from rfl,
      show pyIn "week" "month" = false from rfl,
      show pyIn "month" "month" = true from rfl]
  · simp [show pyIn "day" "months" = false from rfl,
      show pyIn "week" "months" = false from rfl,
      show pyIn "month" "months" = true from rfl]
  · simp [show pyIn "day" "year" = false from rfl,
      show pyIn "week" "year" = false from rfl,
      show pyIn "month" "year" = false from rfl,
      show pyIn "year" "year" = true from rfl]
  · simp [show pyIn "day" "years" = false from rfl,
      show pyIn "week" "years" = false from rfl,
      show pyIn "month" "years" = false from rfl,
      show pyIn "year" "years" = true from rfl]

/-- Claim C4 counterexample: "every 2 WEEKS" matches the numeric form (and
not the fixed-keyword form), yet the extractor leaves recurrence absent
with `custom_recurrence_days = 2` instead of the claimed custom/14,
because the unit substring checks are case-sensitive. -/
theorem claim_C4_counterexample :
    reSearch p_rec1 "every 2 WEEKS" = none ∧
    (reSearch p_rec2 "every 2 WEEKS").isSome = true ∧
    extractRecurrence "every 2 WEEKS" = .ok (none, some 2) ∧
    extractRecurrence "every 2 WEEKS" ≠ .ok (some "custom", some 14) ∧
    extract_reminder_info ⟨2025, 8, 1, 12, 0, 0⟩ (fun _ => none) "every 2 WEEKS" =
      .ok ⟨"every WEEKS", 0, some "2025-08-02 12:00:00+00:00", none, none, some 2⟩ := by
  have h3 : extractRecurrence "every 2 WEEKS" = .ok (none, some 2) := by rfl
  refine ⟨by rfl, by rfl, h3, ?_, by rfl⟩
  rw [h3]
  simp

/-- Claim C4 witness: the amended statement applied to the concrete phrase
"every 2 weeks" yields recurrence custom with 14 days. -/
theorem claim_C4_witness :
    extractRecurrence "every 2 weeks" = .ok (some "custom", some (2 * 7)) :=
  (claim_C4_numeric_recurrence "every 2 weeks"
    [(2, ['w', 'e', 'e', 'k', 's']), (1, ['2'])] ['2'] ['w', 'e', 'e', 'k', 's'] 2
    (by rfl) (by rfl) (by rfl) (by rfl) (by rfl)).2.1 (Or.inr (by rfl))

/-! ### Claims C8, C9, C10 -/

/-- Claim C8: classifying "delete reminder: Netflix" yields the delete
intent with title "netflix" — the command word and colon are stripped, the
title is taken from the lower-cased utterance, and stray words are removed
from the captured rest. -/
theorem claim_C8_delete_netflix (now : PyDateTime)
    (cal : String → Option PyDateTime) :
    parse_reminder_request now cal "delete reminder: Netflix" =
      ⟨"delete", some "netflix", none, none, none, none, none⟩ := by rfl

/-- Claim C9: the classifier never propagates an exception: an `ok` body
result is returned unchanged and any exception value reaching the handler
is downgraded to the `none` action. -/
theorem claim_C9_never_raises (now : PyDateTime)
    (cal : String → Option PyDateTime) (s : String) :
    (∀ r, parse_reminder_requestE now cal s = .ok r →
      parse_reminder_request now cal s = r) ∧
    (∀ e, parse_reminder_requestE now cal s = .error e →
      parse_reminder_request now cal s = noneIntent) := by
  constructor
  · intro r h
    unfold parse_reminder_request
    rw [h]
  · intro e h
    unfold parse_reminder_request
    rw [h]

/-- Claim C9 witness: the date group "3/15" makes the modelled `int(...)`
raise inside classification, and the classifier downgrades the exception
to the `none` action. -/
theorem claim_C9_witness :
    parse_reminder_requestE ⟨2025, 8, 1, 12, 0, 0⟩ (fun _ => none)
      "remind me to pay rent by 3/15" = .error "ValueError" ∧
    parse_reminder_request ⟨2025, 8, 1, 12, 0, 0⟩ (fun _ => none)
      "remind me to pay rent by 3/15" = noneIntent :=
  ⟨by rfl, (claim_C9_never_raises ⟨2025, 8, 1, 12, 0, 0⟩ (fun _ => none)
    "remind me to pay rent by 3/15").2 "ValueError" (by rfl)⟩

/-- Claim C10: the amount patterns accept a fractional part only with
exactly two digits: in "bill $12.5" the first amount pattern captures only
the integer part "12" and the extracted amount is 12.0. -/
theorem claim_C10_fractional_amount (now : PyDateTime)
    (cal : String → Option PyDateTime) :
    reSearch p_amount1 "bill $12.5" = some [(1, ['1', '2'])] ∧
    extract_reminder_info now cal "bill $12.5" =
      .ok ⟨"Payment Reminder", 12, some (parse_date now cal "tomorrow"),
        none, none, none⟩ :=
  ⟨by rfl, by rfl⟩

/-! ### Claim C2 -/

/-- Claim C2 (code bug): in the not-found branch the failure message does
suggest at most three stored titles, but the suggestion filter's
comprehension variable shadows the query title, so every nonempty stored
title qualifies: stored title "zebra" is suggested for the query
"netflix" though they share no word. -/
theorem claim_C2_suggestion_shadowing :
    delete_reminder ["zebra"] "netflix" =
      ⟨false, "No reminder found matching 'netflix'. Did you mean: zebra?", 0⟩ ∧
    sharesWord "zebra" "netflix" = false :=
  ⟨by rfl, by rfl⟩

/-! ### Claim C1 -/

/-- A concrete calendar parser mapping "August 15" to midnight of
2025-08-15 (what `dateutil` returns for that fragment in 2025). -/
def calAug15 : String → Option PyDateTime :=
  fun s => if s = "August 15" then some ⟨2025, 8, 15, 0, 0, 0⟩ else none

/-- Claim C1 counterexample: on the claimed input the pipeline classifies
a create intent with amount 150, category electricity, the 09:00 due date
and no recurrence — but the title is the category fallback "Electricity
Payment", which does not contain "electricity bill": "bill" is removed as
a command word and "electricity" as the category reference, so cleaning
leaves nothing. -/
theorem claim_C1_counterexample :
    parse_reminder_request ⟨2025, 8, 1, 12, 0, 0⟩ calAug15
      "create reminder to pay electricity bill $150 by August 15" =
      ⟨"create", some "Electricity Payment", some 150,
        some "2025-08-15 09:00:00+00:00", some "electricity", none, none⟩ ∧
    pyIn "electricity bill" (pyLower "Electricity Payment") = false :=
  ⟨by rfl, by rfl⟩

/-- Claim C1 (amended): for the utterance "create reminder to pay
electricity bill $150 by August 15", when the calendar parser resolves
"August 15" to a zero-time datetime, the classifier yields a create intent
whose title is the category fallback "Electricity Payment", amount 150.0,
due date the resolver's result for "August 15" with the hour forced to 9,
category electricity, and recurrence absent. -/
theorem claim_C1_create_pipeline (now : PyDateTime)
    (cal : String → Option PyDateTime) (d : PyDateTime)
    (hcal : cal "August 15" = some d) (hh : d.hour = 0) (hm : d.minute = 0)
    (hs : d.second = 0) :
    parse_date now cal "August 15" =
      fmtTimestamp ⟨d.year, d.month, d.day, 9, d.minute, d.second⟩ ∧
    parse_reminder_requestE now cal
      "create reminder to pay electricity bill $150 by August 15" =
      .ok ⟨"create", some "Electricity Payment", some 150,
        some (fmtTimestamp ⟨d.year, d.month, d.day, 9, d.minute, d.second⟩),
        some "electricity", none, none⟩ := by
  have c1 : pyIn "today" (pyLower "August 15") = false := by decide
  have c2 : pyIn "tomorrow" (pyLower "August 15") = false := by decide
  have c3 : pyIn "next week" (pyLower "August 15") = false := by decide
  have c4 : pyIn "next month" (pyLower "August 15") = false := by decide
  have hpdt : parse_dateDT now cal "August 15" =
      ⟨d.year, d.month, d.day, 9, d.minute, d.second⟩ := by
    unfold parse_dateDT
    simp only [c1, c2, c3, c4, Bool.false_eq_true, if_false, hcal]
    rw [if_pos ⟨hh, hm, hs⟩]
  have hpd : parse_date now cal "August 15" =
      fmtTimestamp ⟨d.year, d.month, d.day, 9, d.minute, d.second⟩ := by
    unfold parse_date
    rw [hpdt]
  refine ⟨hpd, ?_⟩
  have hne : fmtTimestamp ⟨d.year, d.month, d.day, 9, d.minute, d.second⟩ ≠ "" := by
    intro hcontra
    exact List.noConfusion (congrArg String.data hcontra)
  have hdueGo : extractDueDate now cal "to pay electricity bill $150 by August 15" =
      .ok (some (parse_date now cal "August 15")) := by rfl
  have hdd : dueDefault now cal (some (parse_date now cal "August 15")) =
      some (fmtTimestamp ⟨d.year, d.month, d.day, 9, d.minute, d.second⟩) := by
    unfold dueDefault
    rw [hpd]
    simp only []
    rw [if_neg hne]
  have hext : extract_reminder_info now cal "to pay electricity bill $150 by August 15" =
      .ok ⟨"Electricity Payment", 150,
        some (fmtTimestamp ⟨d.year, d.month, d.day, 9, d.minute, d.second⟩),
        some "electricity", none, none⟩ := by
    unfold extract_reminder_info
    rw [hdueGo]
    simp only []
    rw [show extractRecurrence "to pay electricity bill $150 by August 15" =
      .ok (none, none) from by rfl]
    simp only []
    rw [hdd]
    rfl
  have hreq : parse_reminder_requestE now cal
      "create reminder to pay electricity bill $150 by August 15" =
      (extract_reminder_info now cal "to pay electricity bill $150 by August 15").map
        (fun i => ⟨"create", some i.title, some i.amount, i.due_date, i.category,
          i.recurrence, i.custom_recurrence_days⟩) := by rfl
  rw [hreq, hext]
  rfl

/-- Claim C1 witness: the amended pipeline statement instantiated at the
concrete calendar parser `calAug15`. -/
theorem claim_C1_witness :
    parse_date ⟨2025, 8, 1, 12, 0, 0⟩ calAug15 "August 15" =
      fmtTimestamp ⟨2025, 8, 15, 9, 0, 0⟩ ∧
    parse_reminder_requestE ⟨2025, 8, 1, 12, 0, 0⟩ calAug15
      "create reminder to pay electricity bill $150 by August 15" =
      .ok ⟨"create", some "Electricity Payment", some 150,
        some (fmtTimestamp ⟨2025, 8, 15, 9, 0, 0⟩), some "electricity", none, none⟩ :=
  claim_C1_create_pipeline ⟨2025, 8, 1, 12, 0, 0⟩ calAug15 ⟨2025, 8, 15, 0, 0, 0⟩
    (by rfl) rfl rfl rfl
